import Mathlib

/-!
Verification of the downstream merge-bot orchestration script (merge.py).

The script reconciles downstream git branches with their upstream sources.
We give a shallow embedding of its data model and operations: every git or
GitHub side effect is mediated by an explicit environment (`Env`), and every
orchestration function is a value in a small writer-plus-exceptions structure
(`EW`) that records the result (normal return or Python exception) together
with the ordered list of external commands the function attempted.  Python
dictionary lookups, truthiness tests and exception handling are modelled
explicitly; file names and message strings follow the source (apostrophes and
other punctuation that the embedding language restricts are omitted from
message literals, which no claim depends on).
-/

namespace MergeBot

/-- Python exceptions that merge.py can raise: KeyError from a dict index on a
missing key, ValueError from config validation, GitCommandError from a git
invocation (carrying command, stdout, stderr), and a generic Exception with a
message. -/
inductive Exc where
  | keyError (key : String)
  | valueError (msg : String)
  | gitError (command : List String) (stdout stderr : String)
  | excMsg (msg : String)
deriving DecidableEq

/-- Outcome of one external git invocation: captured stdout on success, or the
stdout/stderr carried by the raised GitCommandError on failure. -/
inductive GitOutcome where
  | ok (stdout : String)
  | fail (stdout stderr : String)
deriving DecidableEq

/-- The external world as merge.py observes it: the behaviour of git
invocations, which local branches exist (repo.branches lookup in checkout),
whether the overlay sentinel file exists (os.path.exists in merge_overlay),
the open issue titles the GitHub API returns, and whether issue creation
succeeds. -/
structure Env where
  run : List String → GitOutcome
  branchExists : String → Bool
  sentinelExists : String → Bool
  ghList : Except Exc (List String)
  ghCreate : Except Exc Unit

/-- Result of running a piece of the script: a normal value or an uncaught
exception, plus the trace of external commands attempted, in order.  The trace
also records two bookkeeping events as pseudo-commands: the sentinel file
write in merge_overlay and the GitHub issue creation. -/
structure EW (α : Type) where
  res : Except Exc α
  trace : List (List String)

/-- Sequencing of script steps: an exception aborts the rest, traces
accumulate in order. -/
def EW.bind {α β : Type} (x : EW α) (f : α → EW β) : EW β :=
  match x.res with
  | .error e => ⟨.error e, x.trace⟩
  | .ok a =>
    let y := f a
    ⟨y.res, x.trace ++ y.trace⟩

instance : Monad EW where
  pure a := ⟨.ok a, []⟩
  bind := EW.bind

/-- Model of a raise statement. -/
def EW.throw {α : Type} (e : Exc) : EW α := ⟨.error e, []⟩

/-- Model of a try/except Exception handler (catches every modelled
exception). -/
def EW.catch {α : Type} (x : EW α) (h : Exc → EW α) : EW α :=
  match x.res with
  | .error e =>
    let y := h e
    ⟨y.res, x.trace ++ y.trace⟩
  | .ok a => ⟨.ok a, x.trace⟩

/-- Model of a try/except git.exc.GitCommandError handler: only git command
errors are handled, every other exception propagates. -/
def EW.catchGit {α : Type} (x : EW α) (h : List String → String → String → EW α) : EW α :=
  match x.res with
  | .error (.gitError c so se) =>
    let y := h c so se
    ⟨y.res, x.trace ++ y.trace⟩
  | _ => x

/-- Model of the cantfail decorator (merge.py lines 262-268): the wrapped call
never raises; an exception is logged and the call returns None, modelled as
none. -/
def cantfailEW {α : Type} (x : EW α) : EW (Option α) :=
  match x.res with
  | .error _ => ⟨.ok none, x.trace⟩
  | .ok a => ⟨.ok (some a), x.trace⟩

/-- Model of execute_git (merge.py lines 178-183): runs one git command in the
environment, returns its stdout, raises GitCommandError on failure; the
invocation is recorded in the trace. -/
def execute_git (env : Env) (cmd : List String) : EW String :=
  ⟨match env.run cmd with
   | .ok s => .ok s
   | .fail so se => .error (.gitError cmd so se), [cmd]⟩

/-- Python substring test (the in operator) on lists of characters. -/
def subListOf (needle : List Char) : List Char → Bool
  | [] => needle.isEmpty
  | c :: rest => needle.isPrefixOf (c :: rest) || subListOf needle rest

/-- The substring of GitCommandError stdout that merge_overlay and
merge_upstream treat as a benign no-op (merge.py lines 227 and 247). -/
def nothingToCommit (stdout : String) : Bool :=
  subListOf "nothing to commit, working tree clean".toList stdout.toList

/-- Truthiness of an optional Python string: None and the empty string are
falsy. -/
def truthyStr : Option String → Bool
  | none => false
  | some s => !(s == "")

/-- Git command run by checkout before anything else (merge.py line 204). -/
def fetchAllCmd : List String := ["git", "fetch", "--all"]

/-- Git command that checks out an existing local branch (line 207). -/
def checkoutCmd (to_branch : String) : List String := ["git", "checkout", to_branch]

/-- Git command that checks out the upstream source branch (line 209). -/
def checkoutUpCmd (from_branch : String) : List String :=
  ["git", "checkout", "upstream/" ++ from_branch]

/-- Git command that creates the target branch (line 210). -/
def newBranchCmd (to_branch : String) : List String := ["git", "checkout", "-b", to_branch]

/-- Git command for the best-effort pull from the downstream remote
(line 211). -/
def pullCmd (to_branch : String) : List String := ["git", "pull", "downstream", to_branch]

/-- Model of checkout (merge.py lines 200-211): fetch all remotes; if the
target branch exists locally check it out, otherwise check out
upstream/from_branch and create the target branch from it; finally attempt a
cantfail-wrapped pull from the downstream remote.  The repo.branches lookup
and its IndexError are modelled by the branchExists test. -/
def checkout (env : Env) (from_branch to_branch : String) : EW Unit := do
  let _ ← execute_git env fetchAllCmd
  if env.branchExists to_branch then
    let _ ← execute_git env (checkoutCmd to_branch)
    pure ()
  else
    let _ ← execute_git env (checkoutUpCmd from_branch)
    let _ ← execute_git env (newBranchCmd to_branch)
    pure ()
  let _ ← cantfailEW (execute_git env (pullCmd to_branch))
  pure ()

/-- The squash-merge command merge_overlay runs (merge.py line 218). -/
def squashCmd (overlay_branch : String) : List String :=
  ["git", "merge", "downstream/" ++ overlay_branch, "--allow-unrelated-histories",
   "--squash", "--strategy", "recursive", "-X", "theirs"]

/-- Trace pseudo-command recording that merge_overlay wrote the sentinel file
.<overlay_branch>_merged into the working directory (lines 219-220). -/
def sentinelMark (overlay_branch : String) : List String :=
  ["write_sentinel", "." ++ overlay_branch ++ "_merged"]

/-- Script step that writes the sentinel file; the write itself cannot raise
in the model, and is recorded in the trace. -/
def writeSentinel (overlay_branch : String) : EW Unit :=
  ⟨.ok (), [sentinelMark overlay_branch]⟩

/-- Commit message used by merge_overlay (line 221). -/
def overlayMsg (overlay_branch : String) : String :=
  "Merged downstream/" ++ overlay_branch ++ " and added sentinel"

/-- Model of merge_overlay (merge.py lines 214-231): when the sentinel file is
absent or force_overlay is set, squash-merge the downstream overlay branch,
write the sentinel, stage everything and commit, returning True; otherwise
fall through to return False.  A GitCommandError whose stdout contains the
nothing-to-commit substring is logged and the function returns False; any
other GitCommandError is re-raised. -/
def merge_overlay (env : Env) (overlay_branch : String) (force_overlay : Bool) : EW Bool :=
  EW.catchGit
    (if !env.sentinelExists overlay_branch || force_overlay then do
      let _ ← execute_git env (squashCmd overlay_branch)
      writeSentinel overlay_branch
      let _ ← execute_git env ["git", "add", "--all"]
      let _ ← execute_git env ["git", "commit", "-m", overlayMsg overlay_branch]
      pure true
    else pure false)
    (fun c so se => if nothingToCommit so then pure false else EW.throw (.gitError c so se))

/-- A pre_commit_hooks entry: a name and the command to run (merge.py
lines 164-168 validate both). -/
structure Hook where
  name : String
  command : List String
deriving DecidableEq

/-- The upstream merge command (merge.py line 236). -/
def upMergeCmd (from_branch : String) : List String :=
  ["git", "merge", "upstream/" ++ from_branch, "--no-commit"]

/-- The .gitignore restore command (line 240). -/
def gitignoreCmd (overlay_branch : String) : List String :=
  ["git", "checkout", "downstream/" ++ overlay_branch, ".gitignore"]

/-- Commit message used by merge_upstream (line 242); the quotation marks of
the source literal are omitted. -/
def upCommitMsg (from_branch to_branch : String) : String :=
  "Merge remote-tracking branch upstream/" ++ from_branch ++ " into " ++ to_branch

/-- The try-block of merge_upstream (merge.py lines 235-245): merge the
upstream branch without committing, run each pre-commit hook in order, restore
.gitignore from the downstream overlay branch, stage everything and commit,
returning True. -/
def merge_upstream_raw (env : Env) (from_branch to_branch overlay_branch : String)
    (pre_commit_hooks : List Hook) : EW Bool := do
  let _ ← execute_git env (upMergeCmd from_branch)
  pre_commit_hooks.forM (fun hk => do
    let _ ← execute_git env hk.command
    pure ())
  let _ ← execute_git env (gitignoreCmd overlay_branch)
  let _ ← execute_git env ["git", "add", "--all"]
  let _ ← execute_git env ["git", "commit", "-m", upCommitMsg from_branch to_branch]
  pure true

/-- Model of merge_upstream (merge.py lines 234-251): the try-block above with
the GitCommandError handler of lines 246-251 (nothing-to-commit stdout means
return False, anything else re-raises). -/
def merge_upstream (env : Env) (from_branch to_branch overlay_branch : String)
    (pre_commit_hooks : List Hook) : EW Bool :=
  EW.catchGit (merge_upstream_raw env from_branch to_branch overlay_branch pre_commit_hooks)
    (fun c so se => if nothingToCommit so then pure false else EW.throw (.gitError c so se))

/-- The push command (merge.py line 258), addressed to the downstream
remote. -/
def pushCmd (to_branch : String) : List String := ["git", "push", "downstream", to_branch]

/-- Model of push (merge.py lines 254-259): a no-op when no_push is set,
otherwise one git push of the target branch to the downstream remote. -/
def push (env : Env) (from_branch to_branch : String) (no_push : Bool) : EW Unit :=
  if no_push then pure ()
  else do
    let _ ← execute_git env (pushCmd to_branch)
    pure ()

/-- Model of cleanup (merge.py lines 271-278): try to abort an in-progress
merge ignoring git errors, then cantfail-reset and cantfail-clean; the whole
function carries the cantfail decorator. -/
def cleanup (env : Env) : EW (Option Unit) :=
  cantfailEW (do
    EW.catchGit (do
      let _ ← execute_git env ["git", "merge", "--abort"]
      pure ())
      (fun _ _ _ => pure ())
    let _ ← cantfailEW (execute_git env ["git", "reset", "--hard", "HEAD"])
    let _ ← cantfailEW (execute_git env ["git", "clean", "-f"])
    pure ())

/-- The deduplication title used by file_github_issue (merge.py line 283). -/
def issue_title (from_branch to_branch : String) : String :=
  "Error merging upstream/" ++ from_branch ++ " into " ++ to_branch

/-- Script step that fetches the titles of the open issues on the downstream
repository (merge.py line 285). -/
def ghListAct (env : Env) : EW (List String) := ⟨env.ghList, []⟩

/-- Script step that creates a GitHub issue (merge.py lines 337-341); the
creation attempt is recorded in the trace as a pseudo-command carrying the
title. -/
def ghCreateAct (env : Env) (title : String) : EW Unit :=
  ⟨env.ghCreate, [["github_create_issue", title]]⟩

/-- The try-less body of file_github_issue (merge.py lines 282-342): list the
open issues of the downstream repository and return False (skip, logged) if
one already carries the computed title; otherwise compose the diagnostic body,
whose f-string runs git status, ls -lah and git diff, and create the issue.
Returns True when an issue was created.  The textual body and the assignee
list do not affect control flow and are not tracked beyond the creation
event. -/
def file_github_issue_raw (env : Env) (from_branch to_branch : String)
    (assignees : List String) : EW Bool := do
  let titles ← ghListAct env
  if issue_title from_branch to_branch ∈ titles then
    pure false
  else do
    let _ ← execute_git env ["git", "status"]
    let _ ← execute_git env ["ls", "-lah"]
    let _ ← execute_git env ["git", "diff"]
    let _ ← ghCreateAct env (issue_title from_branch to_branch)
    pure true

/-- Model of file_github_issue: the body above under the cantfail decorator
(merge.py line 281), so it never raises. -/
def file_github_issue (env : Env) (from_branch to_branch : String)
    (assignees : List String) : EW (Option Bool) :=
  cantfailEW (file_github_issue_raw env from_branch to_branch assignees)

/-- One entry of the branches list in the canonical config schema: upstream
source, downstream target, and an optional per-branch force_overlay (merge.py
lines 57-60). -/
structure BranchPair where
  source : String
  target : String
  force_overlay : Option Bool
deriving DecidableEq

/-- The two shapes the branches config value takes in the source: the list of
records the YAML schema expects (validated against type list, line 23), and
the single-entry mapping that parse_args builds from the branch flags
(lines 122-124).  The mapping key is the raw --upstream-branch value, which
argparse leaves as None when the flag is absent. -/
inductive BranchesVal where
  | vlist (entries : List BranchPair)
  | vmap (entries : List (Option String × String))
deriving DecidableEq

/-- The YAML config file, restricted to the keys merge.py reads.  An Option
field is none when the key is absent; github_access_token distinguishes an
absent key from a key present with a null value (inner none) or a string.
Values of entirely unrelated YAML types are not modelled except for branches,
where the list-versus-mapping distinction is the one the claims and the
validation code turn on. -/
structure FileConfig where
  upstream : Option String := none
  downstream : Option String := none
  branches : Option BranchesVal := none
  github_access_token : Option (Option String) := none
  overlay_branch : Option String := none
  force_overlay : Option Bool := none
  exit_on_error : Option Bool := none
  no_push : Option Bool := none
  no_issue : Option Bool := none
  assignees : Option (List String) := none
  log_level : Option String := none
  pre_commit_hooks : Option (List Hook) := none
deriving DecidableEq

/-- The parsed argparse namespace (merge.py lines 86-99): string flags are
None when absent, store_true flags default to False. -/
structure ArgsCli where
  config : String := "bot_config.yaml"
  upstream : Option String := none
  downstream : Option String := none
  downstream_branch : Option String := none
  upstream_branch : Option String := none
  overlay_branch : Option String := none
  force_overlay : Bool := false
  log_level : Option String := none
  exit_on_error : Bool := false
  no_push : Bool := false
  no_issue : Bool := false
deriving DecidableEq

/-- The overrides dict parse_args returns (merge.py lines 100-125): a key is
present (some) exactly when the corresponding flag was truthy. -/
structure Overrides where
  configPath : String
  upstream : Option String := none
  downstream : Option String := none
  branches : Option BranchesVal := none
  overlay_branch : Option String := none
  force_overlay : Option Bool := none
  log_level : Option String := none
  exit_on_error : Option Bool := none
  no_push : Option Bool := none
  no_issue : Option Bool := none
deriving DecidableEq

/-- Truthiness filter for an optional string flag: the key is set in the
overrides dict only when the value is truthy. -/
def optTruthy : Option String → Option String
  | none => none
  | some s => if s = "" then none else some s

/-- The overrides dict before the branch-flag handling (merge.py
lines 100-118). -/
def baseOverrides (a : ArgsCli) : Overrides :=
  { configPath := a.config
    upstream := optTruthy a.upstream
    downstream := optTruthy a.downstream
    overlay_branch := optTruthy a.overlay_branch
    force_overlay := if a.force_overlay then some true else none
    log_level := optTruthy a.log_level
    exit_on_error := if a.exit_on_error then some true else none
    no_push := if a.no_push then some true else none
    no_issue := if a.no_issue then some true else none }

/-- Model of parse_args (merge.py lines 86-125).  When either branch flag is
truthy: giving --upstream-branch without --downstream-branch raises a
ValueError, otherwise the branches key is set to the single-entry mapping
from the raw upstream flag value to the downstream flag value. -/
def parse_args (a : ArgsCli) : Except Exc Overrides :=
  if truthyStr a.downstream_branch || truthyStr a.upstream_branch then
    if !truthyStr a.downstream_branch && truthyStr a.upstream_branch then
      .error (.valueError
        "If overriding the upstream/downstream branches, both --upstream-branch and --downstream-branch must be provided")
    else
      .ok { baseOverrides a with
            branches := some (.vmap [(a.upstream_branch, a.downstream_branch.getD "")]) }
  else
    .ok (baseOverrides a)

/-- Model of config.update(overrides) (merge.py line 134): every key present
in the overrides dict replaces the file value.  parse_args never sets
github_access_token, assignees or pre_commit_hooks, so those keep the file
values. -/
def mergeConfig (file : FileConfig) (ov : Overrides) : FileConfig :=
  { upstream := ov.upstream.or file.upstream
    downstream := ov.downstream.or file.downstream
    branches := ov.branches.or file.branches
    github_access_token := file.github_access_token
    overlay_branch := ov.overlay_branch.or file.overlay_branch
    force_overlay := ov.force_overlay.or file.force_overlay
    exit_on_error := ov.exit_on_error.or file.exit_on_error
    no_push := ov.no_push.or file.no_push
    no_issue := ov.no_issue.or file.no_issue
    assignees := file.assignees
    log_level := ov.log_level.or file.log_level
    pre_commit_hooks := file.pre_commit_hooks }

/-- Model of the token resolution on merge.py line 142:
config.get(github_access_token, os.environ.get(GITHUB_ACCESS_TOKEN)).  The
environment fallback is used only when the key is absent from the merged
config; a key present with a null or empty value is returned as is. -/
def resolveToken : Option (Option String) → Option String → Option String
  | some v, _ => v
  | none, tokenEnv => tokenEnv

/-- The validated configuration load_config returns, as main consumes it:
required fields unwrapped, config.get defaults applied for the optional flags
main reads with .get.  The assignees field stays optional because the default
on merge.py line 136 is stored under the misspelled key assigness, leaving
assignees itself absent. -/
structure LoadedConfig where
  upstream : String
  downstream : String
  branches : List BranchPair
  github_access_token : String
  overlay_branch : Option String
  force_overlay : Bool
  exit_on_error : Bool
  no_push : Bool
  no_issue : Bool
  assignees : Option (List String)
  pre_commit_hooks : List Hook
deriving DecidableEq

/-- The required-field error of merge.py line 157. -/
def requiredErr (field configPath : String) : Exc :=
  .valueError (field ++ " is required, please add it to your " ++ configPath)

/-- The type-validation error of merge.py lines 151-153 for the branches
field, raised when the value is the mapping parse_args builds instead of the
list the schema requires. -/
def branchesTypeErr : Exc := .valueError "branches must be of type list, not dict"

/-- Validation of the pre_commit_hooks entries (merge.py lines 164-168). -/
def checkHooks : List Hook → Except Exc Unit
  | [] => .ok ()
  | hk :: rest =>
    if hk.name = "" then .error (.valueError "pre_commit_hooks must contain a valid string name")
    else if hk.command = [] then
      .error (.valueError "pre_commit_hooks must contain a command, which must be a list")
    else checkHooks rest

/-- Model of load_config (merge.py lines 128-170) on an already-parsed file.
Steps, in source order: merge overrides over the file config; the absent
assignees default is written to the misspelled key assigness (line 136), so
assignees is left untouched; default force_overlay to False; resolve the
access token (environment fallback only for an absent key) and fail without a
truthy token; check the required fields for presence (truthiness) in
declaration order and check that branches is a list, not a mapping; validate
the pre-commit hooks.  String-typed fields are strings by construction in
this model, so their isinstance checks cannot fire. -/
def load_config (file : FileConfig) (ov : Overrides) (tokenEnv : Option String) :
    Except Exc LoadedConfig :=
  let cfg := mergeConfig file ov
  let fo := cfg.force_overlay.getD false
  match resolveToken cfg.github_access_token tokenEnv with
  | none => .error (.excMsg "A github access token is required")
  | some token =>
    if token = "" then .error (.excMsg "A github access token is required")
    else match cfg.upstream with
    | none => .error (requiredErr "upstream" ov.configPath)
    | some up =>
      if up = "" then .error (requiredErr "upstream" ov.configPath)
      else match cfg.downstream with
      | none => .error (requiredErr "downstream" ov.configPath)
      | some down =>
        if down = "" then .error (requiredErr "downstream" ov.configPath)
        else match cfg.branches with
        | none => .error (requiredErr "branches" ov.configPath)
        | some (.vlist entries) =>
          if entries = [] then .error (requiredErr "branches" ov.configPath)
          else match checkHooks (cfg.pre_commit_hooks.getD []) with
          | .error e => .error e
          | .ok () =>
            .ok { upstream := up
                  downstream := down
                  branches := entries
                  github_access_token := token
                  overlay_branch := cfg.overlay_branch
                  force_overlay := fo
                  exit_on_error := cfg.exit_on_error.getD false
                  no_push := cfg.no_push.getD false
                  no_issue := cfg.no_issue.getD false
                  assignees := cfg.assignees
                  pre_commit_hooks := cfg.pre_commit_hooks.getD [] }
        | some (.vmap entries) =>
          if entries = [] then .error (requiredErr "branches" ov.configPath)
          else .error branchesTypeErr

/-- Step 69-70 of main: run merge_upstream and, when it reports a committed
merge, push the target branch downstream. -/
def upstreamStep (env : Env) (from_branch to_branch overlay_branch : String)
    (pre_commit_hooks : List Hook) (no_push : Bool) : EW Unit := do
  let merged ← merge_upstream env from_branch to_branch overlay_branch pre_commit_hooks
  if merged then push env from_branch to_branch no_push else pure ()

/-- The try-block of the per-branch loop in main (merge.py lines 62-70):
checkout; when the overlay branch config value is truthy, merge the overlay
and push if it committed; then the upstream merge step.  The merge_upstream
call reads config with a plain dict index on overlay_branch (line 69), which
raises KeyError when the key is absent. -/
def pairBody (env : Env) (cfg : LoadedConfig) (upstream_branch downstream_branch : String)
    (force_overlay : Bool) : EW Unit := do
  checkout env upstream_branch downstream_branch
  (if truthyStr cfg.overlay_branch then do
    let merged ← merge_overlay env (cfg.overlay_branch.getD "") force_overlay
    if merged then push env upstream_branch downstream_branch cfg.no_push else pure ()
  else pure ())
  match cfg.overlay_branch with
  | none => EW.throw (.keyError "overlay_branch")
  | some ob => upstreamStep env upstream_branch downstream_branch ob cfg.pre_commit_hooks cfg.no_push

/-- One iteration of the branch loop in main (merge.py lines 57-81), with its
except-Exception handler: on an exception, re-raise when exit_on_error is set;
otherwise log, then either skip issue filing (no_issue) or file one — reading
config with a plain dict index on assignees (line 80), which raises KeyError
when the key is absent because the line 136 default went to the misspelled
key — and clean up.  Returns none on success and the contained exception
otherwise; an escaping exception is an error result. -/
def processPair (env : Env) (cfg : LoadedConfig) (bc : BranchPair) : EW (Option Exc) :=
  let fo := bc.force_overlay.getD cfg.force_overlay
  EW.catch
    (do
      pairBody env cfg bc.source bc.target fo
      pure none)
    (fun e =>
      if cfg.exit_on_error then EW.throw e
      else do
        (if cfg.no_issue then pure ()
         else match cfg.assignees with
           | none => EW.throw (.keyError "assignees")
           | some asg => do
             let _ ← file_github_issue env bc.source bc.target asg
             pure ())
        let _ ← cleanup env
        pure (some e))

/-- Per-pair record of a finished run: the contained exception if the pair
failed, and the external commands the pair attempted. -/
structure PairRun where
  err : Option Exc
  trace : List (List String)
deriving DecidableEq

/-- Outcome of main: a normal return with its exit code and the processed
pairs, or an exception escaping main (exit_on_error re-raise, or a crash in
the except handler itself), recording the pairs fully processed before it. -/
inductive RunResult where
  | finished (code : Nat) (pairs : List PairRun)
  | raised (e : Exc) (pairs : List PairRun)
deriving DecidableEq

/-- The branch loop of main (merge.py lines 57-83): return_code starts at 0
and becomes 1 when any pair fails; an exception escaping a pair iteration
aborts the loop. -/
def runBranches (env : Env) (cfg : LoadedConfig) :
    List BranchPair → Nat → List PairRun → RunResult
  | [], return_code, acc => .finished return_code acc.reverse
  | bc :: rest, return_code, acc =>
    let r := processPair env cfg bc
    match r.res with
    | .ok oe => runBranches env cfg rest (if oe.isSome then 1 else return_code) (⟨oe, r.trace⟩ :: acc)
    | .error e => .raised e acc.reverse

/-- Model of main from the top of the branch loop (merge.py lines 57-83),
given a loaded config and the external world; the preceding clone and remote
setup of lines 46-55 prepare the repository the environment abstracts. -/
def mainModel (env : Env) (cfg : LoadedConfig) : RunResult :=
  runBranches env cfg cfg.branches 0 []

/-- Python str.replace(needle, repl) on lists of characters, for a nonempty
needle (the guard keeps the function total; PasswordFilter is only installed
with the truthy, hence nonempty, access token): scan left to right, replace
each leftmost non-overlapping occurrence of needle by repl and continue after
it. -/
def pyReplace (needle repl : List Char) : List Char → List Char
  | [] => []
  | c :: rest =>
    if h : needle ≠ [] ∧ needle <+: (c :: rest) then
      repl ++ pyReplace needle repl ((c :: rest).drop needle.length)
    else
      c :: pyReplace needle repl rest
termination_by hay => hay.length
decreasing_by
  · have h1 : needle.length ≤ (c :: rest).length := h.2.length_le
    have h2 : 0 < needle.length := List.length_pos.mpr h.1
    simp only [List.length_drop]
    omega
  · simp

/-- Model of PasswordFilter.write (merge.py lines 353-357): for each
configured secret string, replace every occurrence in the written data by a
run of mask characters of the same length; the function returns the data
forwarded to the underlying stream. -/
def pfWrite (strings_to_filter : List (List Char)) (data : List Char) : List Char :=
  strings_to_filter.foldl (fun d s => pyReplace s (List.replicate s.length mask) d) data
where
  /-- The mask character of PasswordFilter (line 355). -/
  mask : Char := '*'

/-- The host separator add_auth_to_url splits on (merge.py line 174). -/
def ghSep : List Char :=
  ['h', 't', 't', 'p', 's', ':', '/', '/', 'g', 'i', 't', 'h', 'u', 'b', '.', 'c', 'o', 'm']

/-- Python str.split(sep) for a nonempty separator, with the accumulator of
characters read since the last separator: each leftmost non-overlapping
occurrence of the separator ends a part. -/
def pySplitAux (sep acc : List Char) : List Char → List (List Char)
  | [] => [acc]
  | c :: rest =>
    if h : sep ≠ [] ∧ sep <+: (c :: rest) then
      acc :: pySplitAux sep [] ((c :: rest).drop sep.length)
    else
      pySplitAux sep (acc ++ [c]) rest
termination_by s => s.length
decreasing_by
  · have h1 : sep.length ≤ (c :: rest).length := h.2.length_le
    have h2 : 0 < sep.length := List.length_pos.mpr h.1
    simp only [List.length_drop]
    omega
  · simp

/-- Python str.split(sep). -/
def pySplit (sep s : List Char) : List (List Char) := pySplitAux sep [] s

/-- One hexadecimal digit, uppercase, as urllib percent-encoding emits it. -/
def hexDigit (n : Nat) : Char :=
  if n < 10 then Char.ofNat (48 + n) else Char.ofNat (55 + n)

/-- urllib.parse.quote with safe set to the empty string, per character: the
always-safe characters (letters, digits, underscore, dot, hyphen, tilde) pass
through, everything else is percent-encoded.  The model covers single-byte
characters; multi-byte UTF-8 expansion is outside the claims. -/
def pyQuoteChar (c : Char) : List Char :=
  if ('A' ≤ c ∧ c ≤ 'Z') ∨ ('a' ≤ c ∧ c ≤ 'z') ∨ ('0' ≤ c ∧ c ≤ '9') ∨
      c = '_' ∨ c = '.' ∨ c = '-' ∨ c = '~' then
    [c]
  else
    ['%', hexDigit (c.toNat / 16 % 16), hexDigit (c.toNat % 16)]

/-- urllib.parse.quote(s, safe empty) on a list of characters. -/
def pyQuote (s : List Char) : List Char := (s.map pyQuoteChar).flatten

/-- The credential prefix add_auth_to_url joins in front of the remaining
parts (merge.py line 175). -/
def authPrefixC (user token : List Char) : List Char :=
  ['h', 't', 't', 'p', 's', ':', '/', '/'] ++ pyQuote user ++ [':'] ++ pyQuote token ++
    ['@', 'g', 'i', 't', 'h', 'u', 'b', '.', 'c', 'o', 'm']

/-- Model of add_auth_to_url (merge.py lines 173-175): split the URL on the
github host separator and join the credential prefix with every part after
the first; the first part (everything before the first separator occurrence)
is dropped by the join, as are all later separator occurrences. -/
def add_auth_to_url (url user token : List Char) : List Char :=
  authPrefixC user token ++ ((pySplit ghSep url).drop 1).flatten

/-- Test for a merge_overlay result that reports a committed overlay merge
(the return True path). -/
def isOkTrue : Except Exc Bool → Bool
  | .ok true => true
  | _ => false

/-- Environment for one merge_overlay run in a sequence of runs: git behaves
as r, and the sentinel file for the overlay branch exists iff s (the state
persisted in the working directory between runs). -/
def mkOverlayEnv (r : List String → GitOutcome) (overlay_branch : String) (s : Bool) : Env :=
  { run := r
    branchExists := fun _ => false
    sentinelExists := fun b => if b = overlay_branch then s else false
    ghList := .ok []
    ghCreate := .ok () }

/-- Whether the sentinel file exists after a merge_overlay call: it existed
before, or the call wrote it (recorded in the trace). -/
def sentinelAfter (env : Env) (overlay_branch : String) (force_overlay : Bool) : Bool :=
  env.sentinelExists overlay_branch ||
    decide (sentinelMark overlay_branch ∈ (merge_overlay env overlay_branch force_overlay).trace)

/-- Repeated merge_overlay runs against the same working directory with
force_overlay unset: each run sees the sentinel state left by its
predecessors; the list records which runs reported a committed overlay
merge. -/
def overlaySeq (overlay_branch : String) :
    List (List String → GitOutcome) → Bool → List Bool
  | [], _ => []
  | r :: rest, s =>
    isOkTrue (merge_overlay (mkOverlayEnv r overlay_branch s) overlay_branch false).res ::
      overlaySeq overlay_branch rest (sentinelAfter (mkOverlayEnv r overlay_branch s) overlay_branch false)

/-- Number of runs in a sequence that reported a committed overlay merge. -/
def countTrue (l : List Bool) : Nat := (l.filter (fun b => b)).length

/-- Environment in which every external operation succeeds and no local
branch or sentinel exists yet (a fresh clone with no open issues). -/
def envAllOk : Env :=
  { run := fun _ => .ok ""
    branchExists := fun _ => false
    sentinelExists := fun _ => false
    ghList := .ok []
    ghCreate := .ok () }

/-- Environment in which the sentinel file exists for every overlay
branch. -/
def envSentinel : Env :=
  { run := fun _ => .ok ""
    branchExists := fun _ => false
    sentinelExists := fun _ => true
    ghList := .ok []
    ghCreate := .ok () }

/-- Environment in which the upstream merge command fails with the benign
nothing-to-commit output and everything else succeeds. -/
def envUpNoop : Env :=
  { run := fun cmd =>
      if cmd = upMergeCmd "main" then
        .fail "On branch work\nnothing to commit, working tree clean" ""
      else .ok ""
    branchExists := fun _ => true
    sentinelExists := fun _ => false
    ghList := .ok []
    ghCreate := .ok () }

/-- Environment in which only the downstream pull fails (the target branch
does not exist on the downstream remote yet) and everything else succeeds. -/
def envPullFails : Env :=
  { run := fun cmd => if cmd = pullCmd "work" then .fail "" "no such ref" else .ok ""
    branchExists := fun _ => false
    sentinelExists := fun _ => false
    ghList := .ok []
    ghCreate := .ok () }

/-- Environment in which the downstream repository already has an open issue
for the main-to-work merge failure. -/
def envDupIssue : Env :=
  { run := fun _ => .ok ""
    branchExists := fun _ => false
    sentinelExists := fun _ => false
    ghList := .ok [issue_title "main" "work"]
    ghCreate := .ok () }

/-- Valid config file with one branch pair, no overlay branch, and an
assignees list (claim C1 failing input). -/
def fileNoOverlay : FileConfig :=
  { upstream := some "org/up"
    downstream := some "org/down"
    branches := some (.vlist [⟨"main", "work", none⟩])
    github_access_token := some (some "tok")
    assignees := some ["dev"] }

/-- The loaded form of fileNoOverlay under default CLI arguments. -/
def cfgNoOverlay : LoadedConfig :=
  { upstream := "org/up"
    downstream := "org/down"
    branches := [⟨"main", "work", none⟩]
    github_access_token := "tok"
    overlay_branch := none
    force_overlay := false
    exit_on_error := false
    no_push := false
    no_issue := false
    assignees := some ["dev"]
    pre_commit_hooks := [] }

/-- Valid config file with two branch pairs, no overlay branch and no
assignees key (claim C2 failing input). -/
def fileTwoPairs : FileConfig :=
  { upstream := some "org/up"
    downstream := some "org/down"
    branches := some (.vlist [⟨"main", "work", none⟩, ⟨"rel1", "rel1", none⟩])
    github_access_token := some (some "tok") }

/-- The loaded form of fileTwoPairs under default CLI arguments. -/
def cfgTwoPairs : LoadedConfig :=
  { upstream := "org/up"
    downstream := "org/down"
    branches := [⟨"main", "work", none⟩, ⟨"rel1", "rel1", none⟩]
    github_access_token := "tok"
    overlay_branch := none
    force_overlay := false
    exit_on_error := false
    no_push := false
    no_issue := false
    assignees := none
    pre_commit_hooks := [] }

/-- The overrides dict of a run started with no CLI flags. -/
def ovDefault : Overrides := { configPath := "bot_config.yaml" }

/-- CLI arguments supplying both branch override flags (claim C3 failing
input). -/
def argsBranchFlags : ArgsCli :=
  { upstream_branch := some "main", downstream_branch := some "work" }

/-- The overrides dict parse_args builds from argsBranchFlags: the branches
key holds a single-entry mapping, not a list of records. -/
def ovBranchFlags : Overrides :=
  { configPath := "bot_config.yaml"
    branches := some (.vmap [(some "main", "work")]) }

/-- Valid config file used together with the branch override flags. -/
def fileValid : FileConfig :=
  { upstream := some "org/up"
    downstream := some "org/down"
    branches := some (.vlist [⟨"old", "old", none⟩])
    github_access_token := some (some "tok") }

/-- Config file whose github_access_token key is present with a null value
(claim C10 witness input). -/
def fileNullToken : FileConfig :=
  { upstream := some "org/up"
    downstream := some "org/down"
    branches := some (.vlist [⟨"main", "work", none⟩])
    github_access_token := some none }

/-- The per-pair records of a run outcome. -/
def RunResult.pairsOf : RunResult → List PairRun
  | .finished _ pairs => pairs
  | .raised _ pairs => pairs

/-! Helper lemmas about the EW structure. -/

@[simp]
theorem EW_pure_def {α : Type} (a : α) : (pure a : EW α) = ⟨.ok a, []⟩ := rfl

@[simp]
theorem EW_bind_def {α β : Type} (x : EW α) (f : α → EW β) : x >>= f = EW.bind x f := rfl

theorem cantfailEW_ok {α : Type} (x : EW α) : ∀ e, (cantfailEW x).res ≠ .error e := by
  intro e
  cases h : x.res <;> simp [cantfailEW, h]

/-! Claim C10. -/

/-- C10: when the config file has a github_access_token key with a null or
empty value, the config.get fallback returns that value without consulting
the environment variable, and load_config fails with the access-token error
even when the environment variable holds a token. -/
theorem c10_token_fallback (file : FileConfig) (ov : Overrides) (tokenEnv : Option String)
    (v : Option String) (hpresent : file.github_access_token = some v)
    (hfalsy : truthyStr v = false) :
    resolveToken (mergeConfig file ov).github_access_token tokenEnv = v ∧
    load_config file ov tokenEnv = .error (.excMsg "A github access token is required") := by
  have hm : (mergeConfig file ov).github_access_token = some v := by
    simpa [mergeConfig] using hpresent
  refine ⟨by rw [hm]; rfl, ?_⟩
  cases v with
  | none => simp [load_config, hm, resolveToken]
  | some s =>
    have hs : s = "" := by simpa [truthyStr] using hfalsy
    subst hs
    simp [load_config, hm, resolveToken]

/-- Witness for C10 at a concrete input: token key present with value null,
environment variable set. -/
theorem c10_token_fallback_witness :
    resolveToken (mergeConfig fileNullToken ovDefault).github_access_token (some "secret") = none ∧
    load_config fileNullToken ovDefault (some "secret") =
      .error (.excMsg "A github access token is required") :=
  c10_token_fallback fileNullToken ovDefault (some "secret") none rfl rfl

/-! Claim C9. -/

/-- C9: the failure reporter never propagates an exception to its caller
(cantfail swallows everything raised inside it), and when the downstream
repository already has an open issue with exactly the computed title, the
reporter runs no command and creates no issue, returning the skip result. -/
theorem c9_issue_dedup (env : Env) (from_branch to_branch : String) (assignees : List String) :
    (∀ e, (file_github_issue env from_branch to_branch assignees).res ≠ .error e) ∧
    (∀ titles, env.ghList = .ok titles → issue_title from_branch to_branch ∈ titles →
      (file_github_issue env from_branch to_branch assignees).res = .ok (some false) ∧
      (file_github_issue env from_branch to_branch assignees).trace = []) := by
  constructor
  · exact cantfailEW_ok _
  · intro titles hlist hmem
    simp [file_github_issue, file_github_issue_raw, ghListAct, hlist, hmem, cantfailEW, EW.bind]

/-- Witness for C9 at a concrete input: an open issue with the computed title
already exists, no command runs and no issue is created. -/
theorem c9_issue_dedup_witness :
    (file_github_issue envDupIssue "main" "work" []).res = .ok (some false) ∧
    (file_github_issue envDupIssue "main" "work" []).trace = [] :=
  (c9_issue_dedup envDupIssue "main" "work" []).2 [issue_title "main" "work"] rfl (by simp)

/-! Claim C4. -/

/-- C4: when a git invocation inside merge_upstream raises with stdout
containing the nothing-to-commit substring, merge_upstream returns False
instead of raising, and the enclosing main step issues no push (the step adds
no command beyond those of merge_upstream itself); a git error without the
substring propagates unchanged. -/
theorem c4_nothing_to_commit (env : Env) (from_branch to_branch overlay_branch : String)
    (pre_commit_hooks : List Hook) (no_push : Bool) (c : List String) (so se : String)
    (h : (merge_upstream_raw env from_branch to_branch overlay_branch pre_commit_hooks).res =
      .error (.gitError c so se)) :
    (nothingToCommit so = true →
      (merge_upstream env from_branch to_branch overlay_branch pre_commit_hooks).res =
        .ok false ∧
      (upstreamStep env from_branch to_branch overlay_branch pre_commit_hooks no_push).trace =
        (merge_upstream env from_branch to_branch overlay_branch pre_commit_hooks).trace) ∧
    (nothingToCommit so = false →
      (merge_upstream env from_branch to_branch overlay_branch pre_commit_hooks).res =
        .error (.gitError c so se)) := by
  constructor
  · intro hntc
    have hres : (merge_upstream env from_branch to_branch overlay_branch pre_commit_hooks).res =
        .ok false := by
      simp [merge_upstream, EW.catchGit, h, hntc]
    refine ⟨hres, ?_⟩
    simp [upstreamStep, EW.bind, hres]
  · intro hntc
    simp [merge_upstream, EW.catchGit, h, hntc, EW.throw]

/-- Witness for C4 at a concrete input: the upstream merge command reports
nothing to commit, merge_upstream returns False and the step pushes
nothing. -/
theorem c4_nothing_to_commit_witness :
    (merge_upstream envUpNoop "main" "work" "ov" []).res = .ok false ∧
    (upstreamStep envUpNoop "main" "work" "ov" [] false).trace =
      (merge_upstream envUpNoop "main" "work" "ov" []).trace :=
  (c4_nothing_to_commit envUpNoop "main" "work" "ov" [] false (upMergeCmd "main")
    "On branch work\nnothing to commit, working tree clean" "" rfl).1 (by decide)

/-! Claim C5. -/

theorem merge_overlay_skip (env : Env) (overlay_branch : String)
    (h : env.sentinelExists overlay_branch = true) :
    (merge_overlay env overlay_branch false).res = .ok false ∧
    (merge_overlay env overlay_branch false).trace = [] := by
  simp [merge_overlay, h, EW.catchGit]

theorem merge_overlay_force_head (env : Env) (overlay_branch : String) :
    (merge_overlay env overlay_branch true).trace.head? = some (squashCmd overlay_branch) := by
  cases h1 : env.run (squashCmd overlay_branch) with
  | ok s =>
    simp [merge_overlay, EW.catchGit, EW.bind, execute_git, writeSentinel, h1]
    split <;> simp
  | fail so se =>
    by_cases hntc : nothingToCommit so = true <;>
      simp [merge_overlay, EW.catchGit, EW.bind, execute_git, writeSentinel, h1, hntc, EW.throw]

theorem isOkTrue_iff (x : Except Exc Bool) : isOkTrue x = true ↔ x = .ok true := by
  cases x with
  | ok b => cases b <;> simp [isOkTrue]
  | error e => simp [isOkTrue]

theorem merge_overlay_mark (env : Env) (overlay_branch : String) (force_overlay : Bool)
    (h : (merge_overlay env overlay_branch force_overlay).res = .ok true) :
    sentinelMark overlay_branch ∈ (merge_overlay env overlay_branch force_overlay).trace := by
  by_cases hs : (!env.sentinelExists overlay_branch || force_overlay) = true
  · cases h1 : env.run (squashCmd overlay_branch) with
    | ok s =>
      simp [merge_overlay, EW.catchGit, EW.bind, execute_git, writeSentinel, h1, hs]
      split <;> simp
    | fail so se =>
      exfalso
      by_cases hntc : nothingToCommit so = true <;>
        simp [merge_overlay, EW.catchGit, EW.bind, execute_git, writeSentinel, h1, hs, hntc,
          EW.throw] at h
  · exfalso
    simp [merge_overlay, EW.catchGit, hs] at h

theorem overlaySeq_zero (overlay_branch : String) (runs : List (List String → GitOutcome)) :
    countTrue (overlaySeq overlay_branch runs true) = 0 := by
  induction runs with
  | nil => simp [overlaySeq, countTrue]
  | cons r rest ih =>
    have hs : (mkOverlayEnv r overlay_branch true).sentinelExists overlay_branch = true := by
      simp [mkOverlayEnv]
    have h1 := merge_overlay_skip (mkOverlayEnv r overlay_branch true) overlay_branch hs
    simp [overlaySeq, countTrue, isOkTrue, h1.1, sentinelAfter, h1.2, hs] at ih ⊢
    exact ih

theorem overlaySeq_le_one (overlay_branch : String) (runs : List (List String → GitOutcome)) :
    ∀ s : Bool, countTrue (overlaySeq overlay_branch runs s) ≤ 1 := by
  induction runs with
  | nil => intro s; simp [overlaySeq, countTrue]
  | cons r rest ih =>
    intro s
    cases s with
    | true =>
      have h0 := overlaySeq_zero overlay_branch (r :: rest)
      omega
    | false =>
      by_cases hp :
          isOkTrue (merge_overlay (mkOverlayEnv r overlay_branch false) overlay_branch false).res
            = true
      · have hmark := merge_overlay_mark (mkOverlayEnv r overlay_branch false) overlay_branch
          false ((isOkTrue_iff _).mp hp)
        have hafter :
            sentinelAfter (mkOverlayEnv r overlay_branch false) overlay_branch false = true := by
          simp [sentinelAfter, hmark]
        have h0 := overlaySeq_zero overlay_branch rest
        simp only [overlaySeq, hafter, hp, countTrue, List.filter] at h0 ⊢
        simp [h0]
      · have hrest := ih (sentinelAfter (mkOverlayEnv r overlay_branch false) overlay_branch false)
        simp only [overlaySeq, countTrue, List.filter] at hrest ⊢
        simp only [Bool.not_eq_true] at hp
        simp [hp, hrest]

/-- C5: the overlay merge is skipped entirely (no command, result False)
whenever the sentinel file exists and force_overlay is unset; with
force_overlay set the squash merge is attempted first on every call
regardless of the sentinel; and across any sequence of runs against the same
working directory with force_overlay unset, at most one run performs the
overlay merge and commit. -/
theorem c5_overlay_once :
    (∀ (env : Env) (overlay_branch : String), env.sentinelExists overlay_branch = true →
      (merge_overlay env overlay_branch false).res = .ok false ∧
      (merge_overlay env overlay_branch false).trace = []) ∧
    (∀ (env : Env) (overlay_branch : String),
      (merge_overlay env overlay_branch true).trace.head? = some (squashCmd overlay_branch)) ∧
    (∀ (overlay_branch : String) (runs : List (List String → GitOutcome)) (s : Bool),
      countTrue (overlaySeq overlay_branch runs s) ≤ 1) :=
  ⟨merge_overlay_skip, merge_overlay_force_head,
    fun overlay_branch runs s => overlaySeq_le_one overlay_branch runs s⟩

/-- Witness for C5 at a concrete input: with the sentinel present the call is
a commandless no-op returning False. -/
theorem c5_overlay_once_witness :
    (merge_overlay envSentinel "ov" false).res = .ok false ∧
    (merge_overlay envSentinel "ov" false).trace = [] :=
  c5_overlay_once.1 envSentinel "ov" rfl

/-! Claim C6. -/

/-- C6 counterexample: in the branch-creation path (target branch absent
locally) the downstream pull IS attempted — the pull on merge.py line 211
sits outside the try/except and runs in both paths — contradicting the
claim that no downstream pull is attempted in that path. -/
theorem c6_counterexample :
    envAllOk.branchExists "work" = false ∧
    pullCmd "work" ∈ (checkout envAllOk "main" "work").trace := by
  constructor
  · rfl
  · decide

/-- C6 amended: when the target branch exists locally it is checked out and a
best-effort pull from the downstream remote is attempted; when it does not
exist, the branch is created from upstream/source — and the same best-effort,
non-fatal downstream pull is attempted in that creation path as well.  In
both paths checkout succeeds regardless of the pull outcome. -/
theorem c6_checkout (env : Env) (from_branch to_branch : String) (s1 : String)
    (hfetch : env.run fetchAllCmd = .ok s1) :
    (∀ s2, env.branchExists to_branch = true → env.run (checkoutCmd to_branch) = .ok s2 →
      (checkout env from_branch to_branch).trace =
        [fetchAllCmd, checkoutCmd to_branch, pullCmd to_branch] ∧
      (checkout env from_branch to_branch).res = .ok ()) ∧
    (∀ s2 s3, env.branchExists to_branch = false →
      env.run (checkoutUpCmd from_branch) = .ok s2 →
      env.run (newBranchCmd to_branch) = .ok s3 →
      (checkout env from_branch to_branch).trace =
        [fetchAllCmd, checkoutUpCmd from_branch, newBranchCmd to_branch, pullCmd to_branch] ∧
      (checkout env from_branch to_branch).res = .ok ()) := by
  constructor
  · intro s2 hb hco
    cases hp : env.run (pullCmd to_branch) <;>
      simp [checkout, execute_git, hfetch, hb, hco, hp, EW.bind, cantfailEW]
  · intro s2 s3 hb h1 h2
    cases hp : env.run (pullCmd to_branch) <;>
      simp [checkout, execute_git, hfetch, hb, h1, h2, hp, EW.bind, cantfailEW]

/-- Witness for C6 at a concrete input: target branch absent, the downstream
pull fails, and checkout still succeeds after attempting the pull. -/
theorem c6_checkout_witness :
    (checkout envPullFails "main" "work").trace =
      [fetchAllCmd, checkoutUpCmd "main", newBranchCmd "work", pullCmd "work"] ∧
    (checkout envPullFails "main" "work").res = .ok () :=
  (c6_checkout envPullFails "main" "work" "" rfl).2 "" "" rfl rfl rfl

/-! Claim C1. -/

/-- C1: evaluation of the code at a configuration with one branch pair, no
overlay branch and a clean environment.  The claim expects the branch to be
merged, pushed and the process to exit 0; instead, the plain dict index
config[overlay_branch] in the merge_upstream call of main (merge.py line 69)
raises KeyError for a config without an overlay branch, the pair is recorded
as failed (an issue is filed and cleanup runs), no push is ever issued and
main returns 1. -/
theorem c1_no_overlay_keyerror :
    parse_args {} = .ok ovDefault ∧
    load_config fileNoOverlay ovDefault none = .ok cfgNoOverlay ∧
    mainModel envAllOk cfgNoOverlay =
      .finished 1
        [⟨some (.keyError "overlay_branch"),
          [fetchAllCmd, checkoutUpCmd "main", newBranchCmd "work", pullCmd "work",
           ["git", "status"], ["ls", "-lah"], ["git", "diff"],
           ["github_create_issue", issue_title "main" "work"],
           ["git", "merge", "--abort"], ["git", "reset", "--hard", "HEAD"],
           ["git", "clean", "-f"]]⟩] ∧
    ((mainModel envAllOk cfgNoOverlay).pairsOf.all
      (fun pr => !pr.trace.contains (pushCmd "work"))) = true := by
  refine ⟨rfl, rfl, by decide, by decide⟩

/-! Claim C2. -/

/-- C2: evaluation of the code at a run with exit_on_error unset, two branch
pairs and no assignees key.  The first pair raises (the overlay-branch
KeyError of line 69); its except handler then evaluates config[assignees]
(merge.py line 80), but the absent-assignees default of line 136 was stored
under the misspelled key assigness, so the handler itself raises KeyError
and the exception escapes main: no issue is filed, no cleanup runs, the
second pair is never processed and the process dies with a traceback instead
of returning 1. -/
theorem c2_assignees_keyerror :
    load_config fileTwoPairs ovDefault none = .ok cfgTwoPairs ∧
    cfgTwoPairs.exit_on_error = false ∧
    mainModel envAllOk cfgTwoPairs = .raised (.keyError "assignees") [] := by
  refine ⟨rfl, rfl, by decide⟩

/-! Claim C3. -/

/-- C3: evaluation of the code at an invocation supplying both
--upstream-branch and --downstream-branch with an otherwise valid config
file.  The flag values do take precedence over the file branches, but as the
single-entry mapping parse_args builds (merge.py lines 122-124); required
validation demands a list (line 23), so load_config raises ValueError and
the run aborts before reconciling anything, contradicting the claim that
validation passes and the pair is reconciled. -/
theorem c3_branch_flags_rejected :
    parse_args argsBranchFlags = .ok ovBranchFlags ∧
    (mergeConfig fileValid ovBranchFlags).branches = some (.vmap [(some "main", "work")]) ∧
    load_config fileValid ovBranchFlags none = .error branchesTypeErr := by
  refine ⟨rfl, rfl, rfl⟩

/-! Claim C7: lemmas about pyReplace. -/

theorem pyReplace_cons_pos (needle repl : List Char) (c : Char) (rest : List Char)
    (hcond : needle ≠ [] ∧ needle <+: (c :: rest)) :
    pyReplace needle repl (c :: rest) =
      repl ++ pyReplace needle repl ((c :: rest).drop needle.length) := by
  simp only [pyReplace]
  rw [dif_pos hcond]

theorem pyReplace_cons_neg (needle repl : List Char) (c : Char) (rest : List Char)
    (hcond : ¬ (needle ≠ [] ∧ needle <+: (c :: rest))) :
    pyReplace needle repl (c :: rest) = c :: pyReplace needle repl rest := by
  simp only [pyReplace]
  rw [dif_neg hcond]

theorem pyReplace_length (needle repl : List Char) (hlen : repl.length = needle.length) :
    ∀ hay : List Char, (pyReplace needle repl hay).length = hay.length
  | [] => by simp [pyReplace]
  | c :: rest => by
    by_cases hcond : needle ≠ [] ∧ needle <+: (c :: rest)
    · have hle : needle.length ≤ (c :: rest).length := hcond.2.length_le
      have hpos : 0 < needle.length := List.length_pos.mpr hcond.1
      have ih := pyReplace_length needle repl hlen ((c :: rest).drop needle.length)
      rw [pyReplace_cons_pos needle repl c rest hcond, List.length_append, ih,
        List.length_drop, hlen]
      omega
    · have ih := pyReplace_length needle repl hlen rest
      rw [pyReplace_cons_neg needle repl c rest hcond]
      simp [ih]
termination_by hay => hay.length
decreasing_by
  all_goals first
    | (simp only [List.length_drop]; omega)
    | simp

theorem pyReplace_pfx_free (needle repl : List Char) (hrepl : repl ≠ [])
    (hstar : ∀ x ∈ repl, x = '*') :
    ∀ (hay u : List Char), '*' ∉ u → u <+: pyReplace needle repl hay → u <+: hay
  | [], u, hu, hp => by
    simp only [pyReplace] at hp
    simpa using hp
  | c :: rest, u, hu, hp => by
    by_cases hcond : needle ≠ [] ∧ needle <+: (c :: rest)
    · rw [pyReplace_cons_pos needle repl c rest hcond] at hp
      cases u with
      | nil => exact List.nil_prefix
      | cons x u' =>
        cases repl with
        | nil => exact absurd rfl hrepl
        | cons y repl' =>
          rw [List.cons_append, List.cons_prefix_cons] at hp
          have hy : y = '*' := hstar y (by simp)
          exact absurd (by rw [hp.1, hy]; exact List.mem_cons_self _ _) hu
    · rw [pyReplace_cons_neg needle repl c rest hcond] at hp
      cases u with
      | nil => exact List.nil_prefix
      | cons x u' =>
        rw [List.cons_prefix_cons] at hp
        have hrec := pyReplace_pfx_free needle repl hrepl hstar rest u'
          (fun hm => hu (List.mem_cons_of_mem _ hm)) hp.2
        exact List.cons_prefix_cons.mpr ⟨hp.1, hrec⟩
termination_by hay _ _ _ => hay.length
decreasing_by
  · simp

theorem infix_cons_elim {α : Type} {u : List α} {a : α} {l : List α}
    (h : u <:+: a :: l) : u <+: a :: l ∨ u <:+: l := by
  obtain ⟨s, t, hst⟩ := h
  cases s with
  | nil => exact Or.inl ⟨t, by simpa using hst⟩
  | cons b s' =>
    rw [List.cons_append] at hst
    injection hst with h1 h2
    exact Or.inr ⟨s', t, h2⟩

theorem star_run_elim (u : List Char) (hu : '*' ∉ u) (hne : u ≠ []) :
    ∀ (k : Nat) (X : List Char), u <:+: (List.replicate k '*' ++ X) → u <:+: X := by
  intro k
  induction k with
  | zero => intro X h; simpa using h
  | succ n ih =>
    intro X h
    rw [List.replicate_succ, List.cons_append] at h
    rcases infix_cons_elim h with hp | hi
    · cases u with
      | nil => exact absurd rfl hne
      | cons x u' =>
        rw [List.cons_prefix_cons] at hp
        exact absurd (by rw [hp.1]; exact List.mem_cons_self _ _) hu
    · exact ih X hi

theorem pyReplace_no_occ (token : List Char) (ht : token ≠ []) (hstar : '*' ∉ token) :
    ∀ hay : List Char, token <:+: pyReplace token (List.replicate token.length '*') hay → False
  | [], hinf => ht (by simpa [pyReplace] using hinf)
  | c :: rest, hinf => by
    by_cases hcond : token ≠ [] ∧ token <+: (c :: rest)
    · have hle : token.length ≤ (c :: rest).length := hcond.2.length_le
      have hpos : 0 < token.length := List.length_pos.mpr hcond.1
      rw [pyReplace_cons_pos token _ c rest hcond] at hinf
      have h2 := star_run_elim token hstar ht token.length _ hinf
      exact pyReplace_no_occ token ht hstar ((c :: rest).drop token.length) h2
    · rw [pyReplace_cons_neg token _ c rest hcond] at hinf
      rcases infix_cons_elim hinf with hp | hi
      · obtain ⟨x, t', rfl⟩ : ∃ x t', token = x :: t' := by
          cases token with
          | nil => exact absurd rfl ht
          | cons a b => exact ⟨a, b, rfl⟩
        rw [List.cons_prefix_cons] at hp
        obtain ⟨hx, ht'⟩ := hp
        cases t' with
        | nil =>
          exact hcond ⟨by simp, List.cons_prefix_cons.mpr ⟨hx, List.nil_prefix⟩⟩
        | cons y t'' =>
          have hrepl : List.replicate (x :: y :: t'').length '*' ≠ [] := by simp
          have hpfx := pyReplace_pfx_free (x :: y :: t'')
            (List.replicate (x :: y :: t'').length '*') hrepl
            (fun z hz => List.eq_of_mem_replicate hz) rest (y :: t'')
            (fun hm => hstar (List.mem_cons_of_mem _ hm)) ht'
          exact hcond ⟨by simp, List.cons_prefix_cons.mpr ⟨hx, hpfx⟩⟩
      · exact pyReplace_no_occ token ht hstar rest hi
termination_by hay _ => hay.length
decreasing_by
  all_goals first
    | (simp only [List.length_drop]; omega)
    | simp

/-- C7 counterexample: with the configured secret a-star (a token containing
the mask character), writing the data a-a-star forwards a-star-star, which
still contains the token, contradicting the claim that no forwarded data
contains the token. -/
theorem c7_counterexample :
    pfWrite [['a', '*']] ['a', 'a', '*'] = ['a', '*', '*'] ∧
    ['a', '*'] <:+: pfWrite [['a', '*']] ['a', 'a', '*'] := by
  have hv : pfWrite [['a', '*']] ['a', 'a', '*'] = ['a', '*', '*'] := by
    simp +decide [pfWrite, pyReplace]
  exact ⟨hv, ⟨[], ['*'], by rw [hv]; rfl⟩⟩

/-- C7 amended: for every write through the redaction wrapper with a single
configured secret token, each occurrence is replaced by an equal-length mask
run (the forwarded data keeps the length of the written data), and — provided
the token does not itself contain the mask character — no forwarded data
contains the token. -/
theorem c7_redaction (token data : List Char) (h1 : token ≠ []) (h2 : '*' ∉ token) :
    (pfWrite [token] data).length = data.length ∧ ¬ token <:+: pfWrite [token] data := by
  have hw : pfWrite [token] data =
      pyReplace token (List.replicate token.length '*') data := by
    simp [pfWrite, pfWrite.mask]
  refine ⟨?_, ?_⟩
  · rw [hw]
    exact pyReplace_length token _ (by simp) data
  · rw [hw]
    exact fun hinf => pyReplace_no_occ token h1 h2 data hinf

/-- Witness for C7 at a concrete input: the secret s-e-c is fully masked in
the forwarded data and the length is preserved. -/
theorem c7_redaction_witness :
    (pfWrite [['s', 'e', 'c']] ['x', 's', 'e', 'c', 'y']).length = 5 ∧
    ¬ ['s', 'e', 'c'] <:+: pfWrite [['s', 'e', 'c']] ['x', 's', 'e', 'c', 'y'] :=
  c7_redaction ['s', 'e', 'c'] ['x', 's', 'e', 'c', 'y'] (by decide) (by decide)

/-! Claim C8: lemmas about pySplit and add_auth_to_url. -/

theorem pySplitAux_cons_pos (sep acc : List Char) (c : Char) (rest : List Char)
    (hcond : sep ≠ [] ∧ sep <+: (c :: rest)) :
    pySplitAux sep acc (c :: rest) =
      acc :: pySplitAux sep [] ((c :: rest).drop sep.length) := by
  simp only [pySplitAux]
  rw [dif_pos hcond]

theorem pySplitAux_cons_neg (sep acc : List Char) (c : Char) (rest : List Char)
    (hcond : ¬ (sep ≠ [] ∧ sep <+: (c :: rest))) :
    pySplitAux sep acc (c :: rest) = pySplitAux sep (acc ++ [c]) rest := by
  simp only [pySplitAux]
  rw [dif_neg hcond]

theorem pySplitAux_no_occ (sep : List Char) (hne : sep ≠ []) :
    ∀ (s acc : List Char), ¬ sep <:+: s → pySplitAux sep acc s = [acc ++ s]
  | [], acc, _ => by simp [pySplitAux]
  | c :: rest, acc, h => by
    have hnp : ¬ (sep ≠ [] ∧ sep <+: (c :: rest)) := by
      rintro ⟨_, t, ht⟩
      exact h ⟨[], t, by simpa using ht⟩
    have h' : ¬ sep <:+: rest := by
      rintro ⟨s', t', hst⟩
      exact h ⟨c :: s', t', by simpa using congrArg (List.cons c) hst⟩
    rw [pySplitAux_cons_neg sep acc c rest hnp, pySplitAux_no_occ sep hne rest (acc ++ [c]) h']
    simp
termination_by s _ _ => s.length
decreasing_by
  · simp

/-- C8 counterexample: a URL that does not contain the github host separator
(here the single-character URL x) is not left structurally intact — the
rewrite discards it entirely and returns only the credential prefix, so the
URL is truncated, contradicting the claim that a URL is never otherwise
altered or truncated. -/
theorem c8_counterexample :
    add_auth_to_url ['x'] ['u'] ['t'] = authPrefixC ['u'] ['t'] ∧
    'x' ∉ add_auth_to_url ['x'] ['u'] ['t'] := by
  have hv : add_auth_to_url ['x'] ['u'] ['t'] = authPrefixC ['u'] ['t'] := by
    have hs : pySplit ghSep ['x'] = [['x']] := by
      simp +decide [pySplit, pySplitAux, ghSep]
    simp [add_auth_to_url, hs]
  refine ⟨hv, ?_⟩
  rw [hv]
  decide

/-- C8 amended: for every URL of the form the separator followed by a
remainder in which the separator does not occur again — in particular the
html_url values of github repositories, which start with the separator — the
rewrite returns exactly the credential prefix (percent-encoded user and
token at the github host) followed by the unchanged remainder.  URLs not of
this form are truncated: everything before the first separator occurrence
and every later occurrence is dropped. -/
theorem c8_add_auth (rest user token : List Char) (h : ¬ ghSep <:+: rest) :
    add_auth_to_url (ghSep ++ rest) user token = authPrefixC user token ++ rest := by
  have hne : ghSep ≠ [] := by decide
  have hpfx : ghSep <+: ghSep ++ rest := ⟨rest, rfl⟩
  have hsplit : pySplit ghSep (ghSep ++ rest) = [] :: [[] ++ rest] := by
    have hcons : ∃ c rest2, ghSep ++ rest = c :: rest2 := ⟨'h', ghSep.tail ++ rest, by rfl⟩
    obtain ⟨c, rest2, hc⟩ := hcons
    rw [pySplit, hc, pySplitAux_cons_pos ghSep [] c rest2 (by rw [← hc]; exact ⟨hne, hpfx⟩)]
    rw [← hc, List.drop_left]
    rw [pySplitAux_no_occ ghSep hne rest [] h]
  rw [add_auth_to_url, hsplit]
  simp

/-- Witness for C8 at a concrete input: the URL of a github repository is
rewritten to the credential prefix followed by the unchanged repository
path. -/
theorem c8_add_auth_witness :
    add_auth_to_url (ghSep ++ "/org/repo".toList) ['u'] ['t'] =
      authPrefixC ['u'] ['t'] ++ "/org/repo".toList :=
  c8_add_auth "/org/repo".toList ['u'] ['t'] (by decide)

end MergeBot
